import Mathlib

/-!
Shallow embedding of the `chrome-messenger` core of the
`pixpilot/chrome-extension-toolkit` repository.

Embedded source files:
* `packages/chrome-messenger/src/chrome-messenger.ts` (`makeMessageListener`,
  `processMessage`, `createMessage` dispatch path)
* `packages/chrome-messenger/src/utils/make-send.ts` (`makeSend`,
  `isErrorResponse`, `responseCallback`)
* `packages/chrome-extension-messenger/src/utils/window-filter.ts`
  (`handleWindowFilterWithManualResponse`)
* the error-handler utility (`categorizeRuntimeError`,
  `CHROME_ERROR_PATTERNS`, `createDetailedErrorMessage`) and the
  `isValidMessage` validity check.

JavaScript runtime values carried in messages are modelled by `JSValue`;
asynchronous callback completion is modelled by computing the complete
eventual outcome of a dispatch (the model assumes the host
`windows.getCurrent` callback fires and every handler promise settles,
which is the boundary condition the code itself assumes).
-/

/-- A JSON-style JavaScript runtime value (with `undefined`), the payload
and reply domain of the messenger. Objects are ordered field lists. -/
inductive JSValue where
  | undef
  | null
  | bool (b : Bool)
  | num (n : Int)
  | str (s : String)
  | arr (elems : List JSValue)
  | obj (fields : List (String × JSValue))

/-- First-found field lookup in the field list of a JS object
(models property access `fields[key]`). -/
def lookupField : List (String × JSValue) → String → Option JSValue
  | [], _ => none
  | (k, v) :: rest, key => if k = key then some v else lookupField rest key

/-- Embeds `SendOptions` from the types module of the repository:
`{ tabId?: number; extensionId?: string; windowId?: number }`. -/
structure SendOptions where
  tabId : Option Int
  extensionId : Option String
  windowId : Option Int

/-- The wire envelope `{ identifier, data, options }` constructed by
`makeSend` and consumed by `makeMessageListener`. -/
structure Message where
  identifier : String
  data : JSValue
  options : Option SendOptions

/-- Embeds `isValidMessage` (utils): the request is a well-formed envelope
object whose `identifier` field strictly equals the channel identifier.
(The source checks non-null object shape plus an identifier-membership test;
on the typed envelope this reduces to identifier equality.) -/
def isValidMessage (request : Message) (identifier : String) : Bool :=
  request.identifier == identifier

/-- Embeds `createErrorResponse` (utils) and the inline
`{ error: (error as Error).message }` reply built by `processMessage`. -/
def createErrorResponse (message : String) : JSValue :=
  JSValue.obj [("error", JSValue.str message)]

/-- Embeds `isErrorResponse` (make-send.ts): the reply is a non-null object
carrying a string-typed `error` field. -/
def isErrorResponse (response : JSValue) : Bool :=
  match response with
  | JSValue.obj fields =>
      match lookupField fields "error" with
      | some (JSValue.str _) => true
      | _ => false
  | _ => false

/-- The text of the `error` field of an error-shaped reply
(`response.error` in `responseCallback`). -/
def responseErrorText (response : JSValue) : String :=
  match response with
  | JSValue.obj fields =>
      match lookupField fields "error" with
      | some (JSValue.str s) => s
      | _ => ""
  | _ => ""

/-- The `{ code, reason, solution }` part of a categorized error, the shape
`createDetailedErrorMessage` consumes. -/
structure ErrorInfo where
  code : String
  reason : String
  solution : String

/-- Embeds the `ChromeError` interface of the error handler:
an `ErrorInfo` plus its list of trigger substrings. -/
structure ChromeError extends ErrorInfo where
  includes : List String

/-- The first character list starts the second one. -/
def charListStartsWith : List Char → List Char → Bool
  | [], _ => true
  | _ :: _, [] => false
  | c :: cs, d :: ds => c == d && charListStartsWith cs ds

/-- The needle occurs as a contiguous run somewhere in the haystack. -/
def charListContains (needle : List Char) : List Char → Bool
  | [] => charListStartsWith needle []
  | c :: rest => charListStartsWith needle (c :: rest) || charListContains needle rest

/-- JavaScript `haystack.includes(needle)` substring containment
(`true` on the empty needle, as in JS). -/
def strContains (haystack needle : String) : Bool :=
  charListContains needle.data haystack.data

/-- JavaScript `s.toLowerCase()` on the ASCII strings the classifier
handles: character-wise lowering. -/
def strToLower (s : String) : String :=
  String.mk (s.data.map Char.toLower)

/-- Embeds the ordered `CHROME_ERROR_PATTERNS` table of the error handler,
verbatim from the source. -/
def CHROME_ERROR_PATTERNS : List ChromeError :=
  [ { code := "NO_RECEIVER"
      reason := "No listener registered for this message"
      solution := "Ensure the target script is loaded and onMessage listener is registered"
      includes := ["receiving end does not exist", "could not establish connection"] },
    { code := "TAB_UNAVAILABLE"
      reason := "Tab is closed or page is restricted"
      solution := "Check tab exists before sending, or verify permissions for chrome:// pages"
      includes := ["tab was closed", "no tab with id", "cannot access contents of",
        "cannot access a chrome://", "cannot access chrome-extension://"] },
    { code := "CONTEXT_INVALIDATED"
      reason := "Extension was reloaded, updated, or disabled"
      solution := "Reload the page or restart the extension"
      includes := ["extension context invalidated", "cannot access a chrome extension context",
        "extension has been reloaded or disabled"] },
    { code := "PERMISSION_DENIED"
      reason := "Missing required permissions"
      solution := "Add necessary permissions to manifest.json"
      includes := ["requires permission", "access is forbidden", "this operation is not allowed"] },
    { code := "PORT_DISCONNECTED"
      reason := "Message port was closed before response"
      solution := "Check if the other end disconnected or use sendMessage instead"
      includes := ["message port closed", "port has been disconnected",
        "attempting to use a disconnected port"] } ]

/-- The generic fallback category returned by `categorizeRuntimeError`
when no trigger substring of any pattern matches. -/
def genericRuntimeError : ChromeError :=
  { code := "RUNTIME_ERROR"
    reason := "Chrome runtime error occurred"
    solution := "Check console for details"
    includes := [] }

/-- Embeds `categorizeRuntimeError`: lower-case the raw text, take the first
pattern one of whose trigger substrings is contained in it, else the
generic fallback. -/
def categorizeRuntimeError (errorMessage : String) : ChromeError :=
  let message := strToLower errorMessage
  match CHROME_ERROR_PATTERNS.find?
      (fun pattern => pattern.includes.any (fun keyword => strContains message keyword)) with
  | some pattern => pattern
  | none => genericRuntimeError

/-- Embeds `createDetailedErrorMessage`: composes the target description and
the `Reason` / `Solution` / `Original` lines, joined by newlines. -/
def createDetailedErrorMessage (identifier : String) (error : ErrorInfo)
    (originalErrorMessage : String) (options : Option SendOptions) : String :=
  let target :=
    match options.bind (fun o => o.tabId) with
    | some t => "tab " ++ toString t
    | none =>
        match options.bind (fun o => o.extensionId) with
        | some e => if e == "" then "runtime" else "extension " ++ e
        | none => "runtime"
  "[chrome-messenger] Failed to send \"" ++ identifier ++ "\" to " ++ target ++ "\n" ++
    "Reason: " ++ error.reason ++ "\n" ++
    "Solution: " ++ error.solution ++ "\n" ++
    "Original: " ++ originalErrorMessage

/-- The fixed `ErrorInfo` literal `responseCallback` uses for error-shaped
replies (never produced by the substring classifier). -/
def applicationErrorInfo : ErrorInfo :=
  { code := "APPLICATION_ERROR"
    reason := "Handler threw an error"
    solution := "Fix the error in your message handler" }

/-- The possible completions of a registered handler invocation: a
synchronous return, a synchronous throw of `Error(message)`, a returned
promise that resolves, or a returned promise that rejects with
`Error(message)`. -/
inductive HandlerOutcome where
  | syncReturn (v : JSValue)
  | syncThrow (message : String)
  | asyncResolve (v : JSValue)
  | asyncReject (message : String)

/-- Embeds the inner `processMessage` closure of `makeMessageListener`: the
list of `nativeSendResponse` invocations it eventually performs, paired with
its boolean return value. A rejected promise or a synchronous throw replies
with `{ error: message }`; both success shapes reply with the value. -/
def processMessage (handler : JSValue → HandlerOutcome) (data : JSValue) :
    List JSValue × Bool :=
  match handler data with
  | HandlerOutcome.syncReturn v => ([v], true)
  | HandlerOutcome.syncThrow m => ([createErrorResponse m], true)
  | HandlerOutcome.asyncResolve v => ([v], true)
  | HandlerOutcome.asyncReject m => ([createErrorResponse m], true)

/-- The `browserEnv.windows` sub-capability: `getCurrent` yields a window
whose `id` may itself be absent. -/
structure WindowsApi where
  currentWindowId : Option Int

/-- The host surface of the receiving context as the window filter sees it:
`browserEnv?.windows` present or absent. -/
structure ListenerEnv where
  windows : Option WindowsApi

/-- The observable effect of running one of the filter callbacks:
the replies it sends and whether it invoked the registered handler. -/
structure CallbackEffect where
  replies : List JSValue
  handlerInvoked : Bool

/-- Embeds `handleWindowFilterWithManualResponse` (window-filter.ts):
with a `windowId` present and the windows capability available, the
`getCurrent` callback compares `currentWindow.id === options.windowId` and
runs `onMatch` or `onNoMatch`; with the capability absent, or with no
`windowId`, it runs `onMatch` unfiltered. The boolean is the listener
return value (always `true`: keep the channel open). -/
def handleWindowFilterWithManualResponse (env : ListenerEnv)
    (options : Option SendOptions) (onMatch onNoMatch : CallbackEffect) :
    CallbackEffect × Bool :=
  match options.bind (fun o => o.windowId) with
  | some wid =>
      match env.windows with
      | some w =>
          if w.currentWindowId = some wid then (onMatch, true) else (onNoMatch, true)
      | none => (onMatch, true)
  | none => (onMatch, true)

/-- The complete eventual outcome of one listener invocation: every
`nativeSendResponse` call it performs (in order), the own return
value (`none` models returning `undefined`), and whether the registered
handler was invoked. -/
structure DispatchTrace where
  replies : List JSValue
  retVal : Option Bool
  handlerInvoked : Bool

/-- Embeds `makeMessageListener` (chrome-messenger.ts): reject envelopes
failing `isValidMessage` untouched; route envelopes carrying a `windowId`
through `handleWindowFilterWithManualResponse` with `onMatch` running
`processMessage` and `onNoMatch` replying `undefined`; dispatch the rest
directly to `processMessage`. -/
def makeMessageListener (identifier : String) (handler : JSValue → HandlerOutcome)
    (env : ListenerEnv) (request : Message) : DispatchTrace :=
  if isValidMessage request identifier = false then
    { replies := [], retVal := none, handlerInvoked := false }
  else
    match request.options.bind (fun o => o.windowId) with
    | some _ =>
        let pm := processMessage handler request.data
        let filtered := handleWindowFilterWithManualResponse env request.options
          { replies := pm.1, handlerInvoked := true }
          { replies := [JSValue.undef], handlerInvoked := false }
        { replies := filtered.1.replies, retVal := some filtered.2,
          handlerInvoked := filtered.1.handlerInvoked }
    | none =>
        let pm := processMessage handler request.data
        { replies := pm.1, retVal := some pm.2, handlerInvoked := true }

/-- The host surface of the sending context as `makeSend` probes it:
whether `browserEnv.runtime` is non-null and whether `browserEnv.tabs`
is defined and non-null. -/
structure SendBrowserEnv where
  hasRuntime : Bool
  hasTabs : Bool

/-- The routing decision `makeSend` reaches before any callback fires:
either an immediate rejection with a fixed message, or exactly one
transport call carrying the envelope. -/
inductive SendAttempt where
  | rejectedEarly (message : String)
  | viaTabs (tabId : Int) (message : Message)
  | viaRuntimeExternal (extensionId : String) (message : Message)
  | viaRuntime (message : Message)

/-- Embeds the routing part of `makeSend` (make-send.ts): missing
environment and missing runtime reject immediately; `options?.tabId != null`
routes to `tabs.sendMessage` (rejecting if the tabs capability is absent);
else a non-empty string `extensionId` routes to the external-extension
overload of `runtime.sendMessage`; else the plain runtime send. -/
def makeSendRoute (env : Option SendBrowserEnv) (identifier : String)
    (data : JSValue) (options : Option SendOptions) : SendAttempt :=
  match env with
  | none => SendAttempt.rejectedEarly "[chrome-messenger] browserEnv environment is not defined"
  | some e =>
      if e.hasRuntime = false then
        SendAttempt.rejectedEarly "[chrome-messenger] browserEnv.runtime is not defined"
      else
        let message : Message := { identifier := identifier, data := data, options := options }
        match options.bind (fun o => o.tabId) with
        | some tid =>
            if e.hasTabs then SendAttempt.viaTabs tid message
            else SendAttempt.rejectedEarly
              ("[chrome-messenger] Failed to send to tab " ++ toString tid ++
                ": browserEnv.tabs is not defined")
        | none =>
            match options.bind (fun o => o.extensionId) with
            | some eid =>
                if eid.length > 0 then SendAttempt.viaRuntimeExternal eid message
                else SendAttempt.viaRuntime message
            | none => SendAttempt.viaRuntime message

/-- True when the attempt is the external-extension transport call. -/
def isExternalAttempt : SendAttempt → Bool
  | SendAttempt.viaRuntimeExternal _ _ => true
  | _ => false

/-- True when a transport send is actually performed (any route other than
an immediate rejection). -/
def isSendAttempt : SendAttempt → Bool
  | SendAttempt.rejectedEarly _ => false
  | _ => true

/-- How the promise returned by `send` settles. -/
inductive SendResult where
  | resolved (v : JSValue)
  | rejected (message : String)

/-- Embeds `responseCallback` (make-send.ts): a set `runtime.lastError`
rejects with a classified, composed message; an error-shaped reply rejects
with the composed application-error message; every other reply resolves
verbatim. `lastError = some m` models `chrome.runtime.lastError` being set
with message `m` (the source-level falsy-message defaults
fire when the message is empty/falsy). -/
def responseCallback (identifier : String) (options : Option SendOptions)
    (lastError : Option String) (response : JSValue) : SendResult :=
  match lastError with
  | some le =>
      let chromeError := categorizeRuntimeError le
      SendResult.rejected (createDetailedErrorMessage identifier chromeError.toErrorInfo
        (if le = "" then "Unknown error" else le) options)
  | none =>
      if isErrorResponse response then
        SendResult.rejected (createDetailedErrorMessage identifier applicationErrorInfo
          (responseErrorText response) options)
      else
        SendResult.resolved response

/-- One full round-trip over the one-shot transport with no transport error:
the envelope of the sender is dispatched by the receiving listener, and the first
(only) reply is delivered to the sending `responseCallback` with
`lastError` clear. `none` means the listener produced no reply at all. -/
def roundTrip (identifier : String) (handler : JSValue → HandlerOutcome)
    (env : ListenerEnv) (options : Option SendOptions) (data : JSValue) :
    Option SendResult :=
  let trace := makeMessageListener identifier handler env
    { identifier := identifier, data := data, options := options }
  trace.replies.head?.map (responseCallback identifier options none)

/-- The window filter accepts the envelope (no `windowId`, matching current
window, or windows capability absent): the handler will be invoked. -/
def filterAccepts (env : ListenerEnv) (options : Option SendOptions) : Bool :=
  match options.bind (fun o => o.windowId) with
  | none => true
  | some wid =>
      match env.windows with
      | none => true
      | some w => if w.currentWindowId = some wid then true else false

/-- A pattern of the classifier table fires on a raw error text: some trigger
substring is contained, case-insensitively, in the text. -/
def patternMatches (raw : String) (pattern : ChromeError) : Bool :=
  pattern.includes.any (fun keyword => strContains (strToLower raw) keyword)

theorem processMessage_replies_once (handler : JSValue → HandlerOutcome) (data : JSValue) :
    (processMessage handler data).1.length = 1 ∧ (processMessage handler data).2 = true := by
  unfold processMessage
  cases handler data <;> simp

theorem find_eq_filter_head {α : Type} (p : α → Bool) (l : List α) :
    l.find? p = (l.filter p).head? := by
  induction l with
  | nil => rfl
  | cons a t ih =>
      cases h : p a with
      | true => rw [List.find?_cons_of_pos _ h]; simp [List.filter_cons, h]
      | false =>
          rw [List.find?_cons_of_neg, ih]
          · simp [List.filter_cons, h]
          · simp [h]

theorem charListStartsWith_append (l t : List Char) :
    charListStartsWith l (l ++ t) = true := by
  induction l with
  | nil => rfl
  | cons c cs ih => simp [charListStartsWith, ih]

theorem charListContains_suffix (pre n : List Char) :
    charListContains n (pre ++ n) = true := by
  induction pre with
  | nil =>
      cases n with
      | nil => rfl
      | cons c rest =>
          have h := charListStartsWith_append (c :: rest) []
          simp at h
          simp [charListContains, h]
  | cons c pre ih => simp [charListContains, ih]

theorem strContains_append_self (pre s : String) : strContains (pre ++ s) s = true := by
  unfold strContains
  rw [String.data_append]
  exact charListContains_suffix pre.data s.data

/-- Claim C4: the error classifier is total and first-match-wins — for every
input string `categorizeRuntimeError` returns the first pattern of the ordered
`CHROME_ERROR_PATTERNS` table one of whose trigger substrings is contained,
case-insensitively, in the input, and the generic runtime-error fallback when
no pattern fires, so exactly one category is returned for every input. -/
theorem categorizeRuntimeError_first_match_total (s : String) :
    categorizeRuntimeError s =
      ((CHROME_ERROR_PATTERNS.filter (fun p => patternMatches s p)).head?).getD
        genericRuntimeError := by
  simp only [categorizeRuntimeError, patternMatches]
  rw [find_eq_filter_head]
  cases (CHROME_ERROR_PATTERNS.filter
      (fun p => p.includes.any (fun keyword => strContains (strToLower s) keyword))).head? <;>
    rfl

/-- Claim C5: classifying the raw transport error text
"Could not establish connection. Receiving end does not exist." yields the
no-receiver category, whose code is `NO_RECEIVER`. -/
theorem classify_connection_failure_no_receiver :
    (categorizeRuntimeError
      "Could not establish connection. Receiving end does not exist.").code =
      "NO_RECEIVER" := by
  decide

/-- Claim C8: a handler registered for topic `t1` is never invoked for an
envelope carrying a different topic `t2`: the listener validity check makes
the dispatch return `undefined` (not handled) with no reply and no handler
invocation. -/
theorem listener_never_fires_on_other_topic (t1 t2 : String)
    (handler : JSValue → HandlerOutcome) (env : ListenerEnv) (data : JSValue)
    (options : Option SendOptions) (h : t1 ≠ t2) :
    makeMessageListener t1 handler env
        { identifier := t2, data := data, options := options } =
      { replies := [], retVal := none, handlerInvoked := false } := by
  have hb : ((t2 : String) == t1) = false := by
    simp only [beq_eq_false_iff_ne, ne_eq]
    exact fun hc => h hc.symm
  unfold makeMessageListener
  simp [isValidMessage, hb]

theorem listener_never_fires_on_other_topic_witness :
    makeMessageListener "topicA" (fun _ => HandlerOutcome.syncReturn JSValue.null)
        { windows := none }
        { identifier := "topicB", data := JSValue.null, options := none } =
      { replies := [], retVal := none, handlerInvoked := false } :=
  listener_never_fires_on_other_topic "topicA" "topicB"
    (fun _ => HandlerOutcome.syncReturn JSValue.null) { windows := none }
    JSValue.null none (by decide)

/-- Claim C1: for every incoming envelope whose identifier matches the
channel topic, the dispatcher eventually invokes the host reply callback
exactly once — for synchronous returns, resolving promises, rejecting
promises, synchronous throws, and windowId-filtered envelopes alike — and the
listener returns `true` (keep the channel open) in every one of these cases,
given that `windows.getCurrent` fires and the handler promise settles
(both built into the eventual-outcome model). -/
theorem dispatcher_replies_exactly_once_keeps_open (identifier : String)
    (handler : JSValue → HandlerOutcome) (env : ListenerEnv) (data : JSValue)
    (options : Option SendOptions) :
    (makeMessageListener identifier handler env
        { identifier := identifier, data := data, options := options }).replies.length = 1 ∧
    (makeMessageListener identifier handler env
        { identifier := identifier, data := data, options := options }).retVal =
      some true := by
  have hpm := processMessage_replies_once handler data
  unfold makeMessageListener
  simp only [isValidMessage, beq_self_eq_true, Bool.true_eq_false, if_false]
  cases hop : options.bind (fun o => o.windowId) with
  | none => simp [hop, hpm.1, hpm.2]
  | some wid =>
      unfold handleWindowFilterWithManualResponse
      simp only [hop]
      cases env.windows with
      | none => simp [hpm.1, hpm.2]
      | some w =>
          by_cases hcur : w.currentWindowId = some wid <;> simp [hcur, hpm.1, hpm.2]

/-- Claim C6: a `send` whose options set both `tabId` and `extensionId` never
takes the external-extension send path, and (when the runtime and tabs
capabilities are present) is routed to the specified tab — the `tabId` branch
is checked first. -/
theorem send_routes_tab_over_extension (e : SendBrowserEnv) (identifier : String)
    (data : JSValue) (options : SendOptions) (t : Int) (x : String)
    (ht : options.tabId = some t) (_hext : options.extensionId = some x) :
    isExternalAttempt (makeSendRoute (some e) identifier data (some options)) = false ∧
    (e.hasRuntime = true → e.hasTabs = true →
      makeSendRoute (some e) identifier data (some options) =
        SendAttempt.viaTabs t
          { identifier := identifier, data := data, options := some options }) := by
  unfold makeSendRoute
  constructor
  · cases hr : e.hasRuntime with
    | false => simp [isExternalAttempt, hr]
    | true =>
        simp only [hr, Bool.true_eq_false, if_false]
        cases htabs : e.hasTabs <;> simp [Option.bind, ht, htabs, isExternalAttempt]
  · intro hr htabs
    simp [hr, htabs, Option.bind, ht]

theorem send_routes_tab_over_extension_witness :
    isExternalAttempt (makeSendRoute (some { hasRuntime := true, hasTabs := true })
        "topic" JSValue.null
        (some { tabId := some 5, extensionId := some "x", windowId := none })) = false ∧
    makeSendRoute (some { hasRuntime := true, hasTabs := true }) "topic" JSValue.null
        (some { tabId := some 5, extensionId := some "x", windowId := none }) =
      SendAttempt.viaTabs 5
        { identifier := "topic", data := JSValue.null,
          options := some { tabId := some 5, extensionId := some "x", windowId := none } } := by
  have h := send_routes_tab_over_extension { hasRuntime := true, hasTabs := true }
    "topic" JSValue.null { tabId := some 5, extensionId := some "x", windowId := none }
    5 "x" rfl rfl
  exact ⟨h.1, h.2 rfl rfl⟩

/-- Claim C10: a `send` with `tabId` set while the tabs capability is absent
rejects immediately with the fixed message naming that tab id, and no
transport send is attempted — the external-extension and default-runtime
routes are never tried as fallbacks, even when `extensionId` is also set. -/
theorem send_tab_without_tabs_api_rejects (e : SendBrowserEnv) (identifier : String)
    (data : JSValue) (options : SendOptions) (t : Int)
    (ht : options.tabId = some t) (hr : e.hasRuntime = true) (htabs : e.hasTabs = false) :
    makeSendRoute (some e) identifier data (some options) =
      SendAttempt.rejectedEarly
        ("[chrome-messenger] Failed to send to tab " ++ toString t ++
          ": browserEnv.tabs is not defined") ∧
    isSendAttempt (makeSendRoute (some e) identifier data (some options)) = false := by
  unfold makeSendRoute
  simp only [hr, Bool.true_eq_false, if_false, Option.bind, ht, htabs, if_false]
  exact ⟨rfl, rfl⟩

theorem send_tab_without_tabs_api_rejects_witness :
    makeSendRoute (some { hasRuntime := true, hasTabs := false }) "topic" JSValue.null
        (some { tabId := some 7, extensionId := some "x", windowId := none }) =
      SendAttempt.rejectedEarly
        ("[chrome-messenger] Failed to send to tab " ++ toString (7 : Int) ++
          ": browserEnv.tabs is not defined") ∧
    isSendAttempt (makeSendRoute (some { hasRuntime := true, hasTabs := false })
        "topic" JSValue.null
        (some { tabId := some 7, extensionId := some "x", windowId := none })) = false :=
  send_tab_without_tabs_api_rejects { hasRuntime := true, hasTabs := false } "topic"
    JSValue.null { tabId := some 7, extensionId := some "x", windowId := none } 7
    rfl rfl rfl

/-- Claim C9: the sender-side success/error discriminator is purely
structural — with no transport error, `responseCallback` rejects exactly when
the reply is a non-null object with a string-typed `error` field (composing
the application-error message from that field), and resolves every other
reply verbatim; in particular `null` and `undefined` replies are not
error-shaped and resolve as successful results. -/
theorem responseCallback_structural_discriminator (identifier : String)
    (options : Option SendOptions) (response : JSValue) :
    (isErrorResponse response = true →
      responseCallback identifier options none response =
        SendResult.rejected (createDetailedErrorMessage identifier applicationErrorInfo
          (responseErrorText response) options)) ∧
    (isErrorResponse response = false →
      responseCallback identifier options none response = SendResult.resolved response) ∧
    isErrorResponse JSValue.null = false ∧ isErrorResponse JSValue.undef = false := by
  refine ⟨?_, ?_, rfl, rfl⟩ <;> intro h <;> simp [responseCallback, h]

theorem responseCallback_structural_discriminator_witness :
    responseCallback "topic" none none (JSValue.obj [("error", JSValue.str "boom")]) =
      SendResult.rejected (createDetailedErrorMessage "topic" applicationErrorInfo
        (responseErrorText (JSValue.obj [("error", JSValue.str "boom")])) none) ∧
    responseCallback "topic" none none JSValue.null =
      SendResult.resolved JSValue.null :=
  ⟨(responseCallback_structural_discriminator "topic" none
      (JSValue.obj [("error", JSValue.str "boom")])).1 rfl,
    (responseCallback_structural_discriminator "topic" none JSValue.null).2.1 rfl⟩

/-- Claim C7: when an envelope carries a `windowId`, a matching current
window invokes the handler; any other current window skips the handler while
the pending send promise still resolves (not rejects) with an `undefined` result;
and when the host exposes no windows capability, filtering degrades to the
unfiltered behavior and the handler is invoked with no error produced. -/
theorem window_scope_filtering (identifier : String)
    (handler : JSValue → HandlerOutcome) (data : JSValue) (options : SendOptions)
    (wid cur : Int) (hw : options.windowId = some wid) (hne : cur ≠ wid) :
    (makeMessageListener identifier handler
        { windows := some { currentWindowId := some wid } }
        { identifier := identifier, data := data, options := some options }).handlerInvoked =
      true ∧
    (makeMessageListener identifier handler
        { windows := some { currentWindowId := some cur } }
        { identifier := identifier, data := data, options := some options }).handlerInvoked =
      false ∧
    roundTrip identifier handler { windows := some { currentWindowId := some cur } }
        (some options) data = some (SendResult.resolved JSValue.undef) ∧
    (makeMessageListener identifier handler { windows := none }
        { identifier := identifier, data := data, options := some options }).handlerInvoked =
      true := by
  refine ⟨?_, ?_, ?_, ?_⟩
  · unfold makeMessageListener handleWindowFilterWithManualResponse
    simp [isValidMessage, Option.bind, hw]
  · unfold makeMessageListener handleWindowFilterWithManualResponse
    simp [isValidMessage, Option.bind, hw, hne]
  · unfold roundTrip makeMessageListener handleWindowFilterWithManualResponse
    simp [isValidMessage, Option.bind, hw, hne, responseCallback, isErrorResponse]
  · unfold makeMessageListener handleWindowFilterWithManualResponse
    simp [isValidMessage, Option.bind, hw]

theorem window_scope_filtering_witness :
    (makeMessageListener "topic" (fun _ => HandlerOutcome.syncReturn JSValue.null)
        { windows := some { currentWindowId := some 1 } }
        { identifier := "topic", data := JSValue.null,
          options := some { tabId := none, extensionId := none, windowId := some 1 } }).handlerInvoked =
      true ∧
    (makeMessageListener "topic" (fun _ => HandlerOutcome.syncReturn JSValue.null)
        { windows := some { currentWindowId := some 2 } }
        { identifier := "topic", data := JSValue.null,
          options := some { tabId := none, extensionId := none, windowId := some 1 } }).handlerInvoked =
      false ∧
    roundTrip "topic" (fun _ => HandlerOutcome.syncReturn JSValue.null)
        { windows := some { currentWindowId := some 2 } }
        (some { tabId := none, extensionId := none, windowId := some 1 }) JSValue.null =
      some (SendResult.resolved JSValue.undef) ∧
    (makeMessageListener "topic" (fun _ => HandlerOutcome.syncReturn JSValue.null)
        { windows := none }
        { identifier := "topic", data := JSValue.null,
          options := some { tabId := none, extensionId := none, windowId := some 1 } }).handlerInvoked =
      true :=
  window_scope_filtering "topic" (fun _ => HandlerOutcome.syncReturn JSValue.null)
    JSValue.null { tabId := none, extensionId := none, windowId := some 1 } 1 2
    rfl (by decide)

/-- Claim C2 fails as stated: a handler that legitimately returns the
JSON-serializable value `{ error: "boom" }` completes a round-trip with the
reply delivered and no transport error, yet `send` rejects (with the composed
application-error message) instead of resolving to the returned value. -/
theorem send_roundtrip_error_shaped_counterexample :
    roundTrip "topic"
        (fun _ => HandlerOutcome.syncReturn (JSValue.obj [("error", JSValue.str "boom")]))
        { windows := none } none JSValue.null =
      some (SendResult.rejected
        "[chrome-messenger] Failed to send \"topic\" to runtime\nReason: Handler threw an error\nSolution: Fix the error in your message handler\nOriginal: boom") ∧
    roundTrip "topic"
        (fun _ => HandlerOutcome.syncReturn (JSValue.obj [("error", JSValue.str "boom")]))
        { windows := none } none JSValue.null ≠
      some (SendResult.resolved (JSValue.obj [("error", JSValue.str "boom")])) := by
  refine ⟨rfl, ?_⟩
  intro hcontra
  exact SendResult.noConfusion (Option.some.inj hcontra)

/-- Claim C2 (amended): for every round-trip in which the window filter
accepts the envelope and the handler returns or resolves a value that is not
structurally an error envelope (a non-null object with a string-typed `error`
field), `send` resolves to exactly that value, unchanged; error-shaped return
values are instead rejected as application errors. -/
theorem send_roundtrip_identity_unless_error_shaped (identifier : String)
    (v data : JSValue) (env : ListenerEnv) (options : Option SendOptions)
    (hacc : filterAccepts env options = true) (hv : isErrorResponse v = false) :
    roundTrip identifier (fun _ => HandlerOutcome.syncReturn v) env options data =
      some (SendResult.resolved v) ∧
    roundTrip identifier (fun _ => HandlerOutcome.asyncResolve v) env options data =
      some (SendResult.resolved v) := by
  unfold roundTrip makeMessageListener
  unfold filterAccepts at hacc
  simp only [isValidMessage, beq_self_eq_true, Bool.true_eq_false, if_false]
  cases hop : options.bind (fun o => o.windowId) with
  | none => simp [hop, processMessage, responseCallback, hv]
  | some wid =>
      rw [hop] at hacc
      unfold handleWindowFilterWithManualResponse
      simp only [hop]
      cases henw : env.windows with
      | none => simp [processMessage, responseCallback, hv]
      | some w =>
          rw [henw] at hacc
          have hcur : w.currentWindowId = some wid := by
            by_cases hh : w.currentWindowId = some wid
            · exact hh
            · simp [hh] at hacc
          simp [hcur, processMessage, responseCallback, hv]

theorem send_roundtrip_identity_unless_error_shaped_witness :
    roundTrip "topic" (fun _ => HandlerOutcome.syncReturn (JSValue.num 42))
        { windows := none } none JSValue.null =
      some (SendResult.resolved (JSValue.num 42)) ∧
    roundTrip "topic" (fun _ => HandlerOutcome.asyncResolve (JSValue.num 42))
        { windows := none } none JSValue.null =
      some (SendResult.resolved (JSValue.num 42)) :=
  send_roundtrip_identity_unless_error_shaped "topic" (JSValue.num 42) JSValue.null
    { windows := none } none rfl rfl

/-- Claim C3 fails as stated: when the handler throws `Error("X")`, the
send promise rejects, but with the composed detailed application-error
message (topic, target, reason, solution, original text) — a string different
from `"X"` — not with the bare message `"X"`. -/
theorem handler_throw_message_counterexample :
    roundTrip "topic" (fun _ => HandlerOutcome.syncThrow "X") { windows := none } none
        JSValue.null =
      some (SendResult.rejected
        "[chrome-messenger] Failed to send \"topic\" to runtime\nReason: Handler threw an error\nSolution: Fix the error in your message handler\nOriginal: X") ∧
    ("[chrome-messenger] Failed to send \"topic\" to runtime\nReason: Handler threw an error\nSolution: Fix the error in your message handler\nOriginal: X" ≠
      ("X" : String)) ∧
    roundTrip "topic" (fun _ => HandlerOutcome.syncThrow "X") { windows := none } none
        JSValue.null ≠ some (SendResult.rejected "X") := by
  refine ⟨rfl, by decide, ?_⟩
  intro hcontra
  have hmsg := Option.some.inj hcontra
  injection hmsg with hm
  exact absurd hm (by decide)

/-- Claim C3 (amended): if a handler throws (or rejects with) `Error("X")`,
the corresponding `send` rejects with an error whose message is the composed
detailed application-error message whose `Original` part carries exactly
`"X"` — only the message string crosses the context boundary (the stack is
not preserved), but it is wrapped with topic/target/reason/solution context
rather than being exactly `"X"`. -/
theorem handler_error_message_propagation (identifier msg : String)
    (data : JSValue) (env : ListenerEnv) (options : Option SendOptions)
    (hacc : filterAccepts env options = true) :
    roundTrip identifier (fun _ => HandlerOutcome.syncThrow msg) env options data =
      some (SendResult.rejected
        (createDetailedErrorMessage identifier applicationErrorInfo msg options)) ∧
    roundTrip identifier (fun _ => HandlerOutcome.asyncReject msg) env options data =
      some (SendResult.rejected
        (createDetailedErrorMessage identifier applicationErrorInfo msg options)) ∧
    strContains (createDetailedErrorMessage identifier applicationErrorInfo msg options)
      msg = true := by
  refine ?_
  have hmain : ∀ outcome : HandlerOutcome, outcome = HandlerOutcome.syncThrow msg ∨
      outcome = HandlerOutcome.asyncReject msg →
      roundTrip identifier (fun _ => outcome) env options data =
        some (SendResult.rejected
          (createDetailedErrorMessage identifier applicationErrorInfo msg options)) := by
    intro outcome houtcome
    unfold roundTrip makeMessageListener
    unfold filterAccepts at hacc
    simp only [isValidMessage, beq_self_eq_true, Bool.true_eq_false, if_false]
    have hpm : processMessage (fun _ => outcome) data = ([createErrorResponse msg], true) := by
      rcases houtcome with h | h <;> rw [h] <;> rfl
    cases hop : options.bind (fun o => o.windowId) with
    | none =>
        simp [hop, hpm, responseCallback, isErrorResponse, createErrorResponse,
          lookupField, responseErrorText]
    | some wid =>
        rw [hop] at hacc
        unfold handleWindowFilterWithManualResponse
        simp only [hop]
        cases henw : env.windows with
        | none =>
            simp [hpm, responseCallback, isErrorResponse, createErrorResponse,
              lookupField, responseErrorText]
        | some w =>
            rw [henw] at hacc
            have hcur : w.currentWindowId = some wid := by
              by_cases hh : w.currentWindowId = some wid
              · exact hh
              · simp [hh] at hacc
            simp [hcur, hpm, responseCallback, isErrorResponse, createErrorResponse,
              lookupField, responseErrorText]
  refine ⟨hmain _ (Or.inl rfl), hmain _ (Or.inr rfl), ?_⟩
  unfold createDetailedErrorMessage
  exact strContains_append_self _ msg

theorem handler_error_message_propagation_witness :
    roundTrip "topic" (fun _ => HandlerOutcome.syncThrow "X") { windows := none } none
        JSValue.null =
      some (SendResult.rejected
        (createDetailedErrorMessage "topic" applicationErrorInfo "X" none)) ∧
    roundTrip "topic" (fun _ => HandlerOutcome.asyncReject "X") { windows := none } none
        JSValue.null =
      some (SendResult.rejected
        (createDetailedErrorMessage "topic" applicationErrorInfo "X" none)) ∧
    strContains (createDetailedErrorMessage "topic" applicationErrorInfo "X" none)
      "X" = true :=
  handler_error_message_propagation "topic" "X" JSValue.null { windows := none } none rfl
